import Mathlib

/-!
# Verification of the slurmexec library

A shallow embedding of `src/slurmexec/base.py` and `src/slurmexec/utils.py`
(the slurmexec Python package), together with theorems settling the
specification claims about it.

Python strings are modelled as Lean `String`; the Python string methods used
by the code (`lower`, `startswith`, `replace`, `rsplit`, `str`/`int`
conversion) are modelled structurally over the underlying character list so
that all definitions are executable and kernel-reducible.  The models are
restricted to ASCII behaviour, which is all the code relies on.
-/

/-! ## Python string primitives -/

/-- Python `str.lower()` (ASCII case folding, which is all the code uses). -/
def pyLower (s : String) : String := String.mk (s.toList.map Char.toLower)

/-- Python `str.startswith(pre)`. -/
def pyStartsWith (s pre : String) : Bool := pre.toList.isPrefixOf s.toList

/-- Fuelled worker for `pyReplace`; the fuel is the length of the scanned
list, which bounds the number of recursive steps since every step consumes
at least one character. -/
def replaceAux : Nat → List Char → List Char → List Char → List Char
  | _, [], _, _ => []
  | 0, l, _, _ => l
  | fuel+1, c :: rest, pat, rep =>
    if pat ≠ [] ∧ pat.isPrefixOf (c :: rest) then
      rep ++ replaceAux fuel ((c :: rest).drop pat.length) pat rep
    else
      c :: replaceAux fuel rest pat rep

/-- Python `s.replace(pat, rep)` for a non-empty pattern (the code only
replaces the non-empty patterns `"%x"`, `"%A"`, `"%j"` and `"'"`). -/
def pyReplace (s pat rep : String) : String :=
  String.mk (replaceAux s.toList.length s.toList pat.toList rep.toList)

/-- The characters after the last space of `l` (the whole list when there is
no space). -/
def afterLastSpace (l : List Char) : List Char :=
  (l.reverse.takeWhile (fun c => c ≠ ' ')).reverse

/-- Python `s.rsplit(" ", maxsplit=1)[-1]`: the substring after the last
space character, or all of `s` if it has no space. -/
def rsplit_last (s : String) : String := String.mk (afterLastSpace s.toList)

/-- Numeric value of a decimal digit character. -/
def digitVal (c : Char) : Nat := c.toNat - 48

/-- Fuelled worker producing the base-10 digit characters of `n`, most
significant first (empty for `0`); any fuel at least the number of digits
of `n` — in particular `n` itself — gives the exact digit string. -/
def natReprAux : Nat → Nat → List Char
  | _, 0 => []
  | 0, _ => []
  | fuel+1, n+1 => natReprAux fuel ((n+1) / 10) ++ [Nat.digitChar ((n+1) % 10)]

/-- Python `str(n)` for a natural number: the base-10 digits, most
significant first. -/
def pyNatRepr (n : Nat) : String :=
  if n = 0 then "0" else String.mk (natReprAux n n)

/-- Python `int(s)` on a plain (unsigned) digit string: every character must
be a decimal digit and the result is the base-10 value.  (Python's `int`
also tolerates surrounding whitespace and underscores; the code only ever
parses canonical representations, which this model covers.) -/
def pyParseNatList (l : List Char) : Except String Nat :=
  if l ≠ [] ∧ l.all Char.isDigit then
    Except.ok (l.foldl (fun a c => 10 * a + digitVal c) 0)
  else
    Except.error "invalid literal for int() with base 10"

/-- Python `str(n)` for an integer. -/
def pyIntRepr (n : Int) : String :=
  if n < 0 then "-" ++ pyNatRepr n.natAbs else pyNatRepr n.toNat

/-- Python `int(s)` for an optionally `-`-signed decimal string. -/
def pyParseInt (s : String) : Except String Int :=
  if s.toList.head? = some '-' then
    (pyParseNatList s.toList.tail).map (fun m => -(Int.ofNat m))
  else
    (pyParseNatList s.toList).map (fun m => Int.ofNat m)

/-- The characters `shlex.quote` leaves unquoted: ASCII alphanumerics plus
underscore, at-sign, percent, plus, equals, colon, comma, dot, slash and
dash (the complement of `shlex._find_unsafe`). -/
def shlexSafeChar (c : Char) : Bool :=
  c.isAlphanum || c ∈ ['_', '@', '%', '+', '=', ':', ',', '.', '/', '-']

/-- `shlex.quote(s)` (imported in base.py as `_quote_cmdline_str`): the
empty string becomes `''`; a string of safe characters is returned
unchanged; anything else is wrapped in single quotes with embedded single
quotes escaped as `'"'"'`. -/
def shlex_quote (s : String) : String :=
  if s.toList = [] then "''"
  else if s.toList.all shlexSafeChar then s
  else "'" ++ pyReplace s "'" "'\"'\"'" ++ "'"

/-- `Path(s).expanduser()` restricted to the forms the code uses: a leading
`~` or `~/` is replaced by the home directory (the `~user` form is not
modelled). -/
def expanduser (home s : String) : String :=
  if s = "~" then home
  else if pyStartsWith s "~/" then home ++ String.mk s.toList.tail
  else s

/-! ## Execution context (base.py lines 14-43)

The process-wide state read by the dispatch decisions: the
`SLURM_JOB_ID` environment variable (fixed for the lifetime of the
process) and the module-global `_IS_SLURM_DEBUG` flag (mutable through
`set_slurm_debug`). -/

structure ProcState where
  envSlurmJobId : Option String
  isSlurmDebug : Bool
deriving DecidableEq, Repr

/-- `set_slurm_debug(debug)`: sets the global `_IS_SLURM_DEBUG` flag. -/
def set_slurm_debug (debug : Bool) (s : ProcState) : ProcState :=
  { s with isSlurmDebug := debug }

/-- `is_this_a_slurm_job()`: `get_env_var("SLURM_JOB_ID") is not None or
_IS_SLURM_DEBUG`, evaluated against the current process state. -/
def is_this_a_slurm_job (s : ProcState) : Bool :=
  s.envSlurmJobId.isSome || s.isSlurmDebug

/-- `get_slurm_id()`: the debug placeholder in debug mode, otherwise the
environment variable. -/
def get_slurm_id (s : ProcState) : Option String :=
  if s.isSlurmDebug then some "SLURM_DEBUG" else s.envSlurmJobId

/-- An event that can change the process state after process start.  The
environment block is inherited at `exec` time and the module only ever
mutates `_IS_SLURM_DEBUG`, so toggling the debug flag is the only
state-changing event. -/
inductive SlurmEvent where
  | setDebug (b : Bool)
deriving DecidableEq, Repr

/-- Run a sequence of events from a starting process state. -/
def runEvents (s : ProcState) (es : List SlurmEvent) : ProcState :=
  es.foldl (fun s e => match e with | SlurmEvent.setDebug b => set_slurm_debug b s) s

/-- The error message raised by the `@slurm_job` wrapper outside a slurm job. -/
def slurm_job_error_msg (funcName : String) : String :=
  "Function " ++ funcName ++ " cannot be run outside of a slurm job. Please use slurm_exec() to run this job."

/-- The wrapper installed by the `@slurm_job` decorator (base.py lines
187-192): in a slurm job it calls the wrapped function on its arguments and
returns its result; otherwise it raises `RuntimeError` without calling the
function. -/
def slurm_job_call (s : ProcState) (funcName : String) (f : α → β) (x : α) :
    Except String β :=
  if is_this_a_slurm_job s then Except.ok (f x)
  else Except.error (slurm_job_error_msg funcName)

/-! ## utils.py: `_str_to_bool` and `load_func_argparser`

The values flowing through the derived CLI schema.  `float` parameters are
not modelled (binary floating point is outside this embedding); every other
annotation the deriver special-cases is covered. -/

inductive PyValue where
  | none
  | bool (b : Bool)
  | int (n : Int)
  | str (s : String)
deriving DecidableEq, Repr

/-- A type annotation that a function parameter can carry. -/
inductive PyType where
  | int
  | str
  | bool
  | literal (cs : List PyValue)
deriving DecidableEq, Repr

/-- `_str_to_bool(value)` for a string argument (the `isinstance(value,
bool)` short-circuit only triggers when argparse applies the converter to a
non-string default, which the deriver never does). -/
def str_to_bool (value : String) : Except String Bool :=
  if pyLower value ∈ ["false", "f", "0", "no", "n"] then Except.ok false
  else if pyLower value ∈ ["true", "t", "1", "yes", "y"] then Except.ok true
  else Except.error (value ++ " is not a valid boolean value")

/-- The `type` keyword argument handed to `parser.add_argument`: either a
plain annotation used as a converter, or the `_str_to_bool` function. -/
inductive TypeKwarg where
  | ofType (t : PyType)
  | strToBool
deriving DecidableEq, Repr

/-- Applying a `type` keyword to a command-line token, as argparse does.
`int` parses a signed decimal; `str` is the identity; Python's `bool(s)`
is truthiness of a non-empty string (never reached through the deriver,
which replaces it by `_str_to_bool`); calling a `Literal` raises (also
never reached: the deriver deletes `type` for `Literal`s). -/
def applyType : TypeKwarg → String → Except String PyValue
  | TypeKwarg.ofType PyType.int, s => (pyParseInt s).map PyValue.int
  | TypeKwarg.ofType PyType.str, s => Except.ok (PyValue.str s)
  | TypeKwarg.ofType PyType.bool, s => Except.ok (PyValue.bool (s.toList ≠ []))
  | TypeKwarg.ofType (PyType.literal _), _ => Except.error "TypeError: typing.Literal cannot be called"
  | TypeKwarg.strToBool, s => (str_to_bool s).map PyValue.bool

/-- The per-parameter argparse configuration produced by
`load_func_argparser` for one function parameter. -/
structure ArgSpec where
  name : String
  tyKwarg : Option TypeKwarg
  defaultVal : PyValue
  required : Bool
  choices : Option (List PyValue)
  nargsOpt : Bool
  constVal : PyValue
deriving DecidableEq, Repr

/-- The `const` value the deriver stores for a bool parameter:
`True if default is False else False`. -/
def boolConstOf (defv : Option PyValue) : PyValue :=
  match defv with
  | some (PyValue.bool false) => PyValue.bool true
  | _ => PyValue.bool false

/-- The body of the `load_func_argparser` loop (utils.py lines 60-97) for a
single parameter: `dtype` is the annotation (`none` when unannotated,
modelling `inspect._empty`), `defv` the declared default (`none` when the
parameter has no default).  The base keywords are `type=dtype`,
`default=default`, plus `required=True` when no default is declared; a
`Literal` annotation turns into `choices` with `type` deleted; a `bool`
annotation replaces `type` by `_str_to_bool`, sets `nargs="?"` and
`const = True if default is False else False`. -/
def derive_arg_spec (name : String) (dtype : Option PyType) (defv : Option PyValue) :
    ArgSpec :=
  let base : ArgSpec :=
    { name := name
      tyKwarg := dtype.map TypeKwarg.ofType
      defaultVal := defv.getD PyValue.none
      required := defv.isNone
      choices := Option.none
      nargsOpt := false
      constVal := PyValue.none }
  match dtype with
  | some (PyType.literal cs) => { base with choices := some cs, tyKwarg := Option.none }
  | some PyType.bool =>
      { base with tyKwarg := some TypeKwarg.strToBool
                  nargsOpt := true
                  constVal := boolConstOf defv }
  | _ => base

/-- argparse's handling of a single command-line token for an option:
apply the `type` keyword (the identity on the string when no `type` is
configured), then check the converted value against `choices` when they are
configured. -/
def convert_value (a : ArgSpec) (s : String) : Except String PyValue :=
  (match a.tyKwarg with
   | Option.none => Except.ok (PyValue.str s)
   | some tk => applyType tk s).bind
  (fun v =>
    match a.choices with
    | Option.none => Except.ok v
    | some cs => if v ∈ cs then Except.ok v else Except.error "invalid choice")

/-- argparse's negative-number matcher: a token of the form `-ddd`.  When no
option string of the parser looks like a negative number (true for every
parser this code builds), such a token is treated as a value, not as an
option. -/
def looksLikeNegNumber (t : String) : Bool :=
  match t.toList with
  | '-' :: rest => rest ≠ [] && rest.all Char.isDigit
  | _ => false

/-- Whether argparse would treat the token as an option string rather than
as a value for the preceding option. -/
def looks_like_option (t : String) : Bool :=
  pyStartsWith t "-" && !looksLikeNegNumber t && t ≠ "-"

/-- argparse's treatment of the argument vector for one derived option
`--name` (first occurrence; the claims only involve argument vectors that
mention an option at most once): absent flag yields the default (or a
missing-argument error for a required parameter); a bare flag with
`nargs="?"` yields `const`; a flag followed by a value token converts it
through `convert_value`. -/
def parseArgScan (a : ArgSpec) : List String → Except String PyValue
  | [] => if a.required then Except.error "the following arguments are required" else Except.ok a.defaultVal
  | t :: rest =>
    if t = "--" ++ a.name then
      match rest with
      | [] => if a.nargsOpt then Except.ok a.constVal else Except.error "expected one argument"
      | v :: _ =>
        if looks_like_option v then
          (if a.nargsOpt then Except.ok a.constVal else Except.error "expected one argument")
        else convert_value a v
    else parseArgScan a rest

/-- Python `str(v)`: the canonical string representation of a value. -/
def pyRepr : PyValue → String
  | PyValue.none => "None"
  | PyValue.bool true => "True"
  | PyValue.bool false => "False"
  | PyValue.int n => pyIntRepr n
  | PyValue.str s => s

/-! ## base.py: `SlurmExecutableBuilder`

The builder's `_args` dict is modelled as an insertion-ordered association
list with Python `dict` update semantics: assigning to an existing key
replaces its value in place, assigning a new key appends it. -/

/-- Python `d[k] = v` on an insertion-ordered dict. -/
def dictInsert (l : List (String × String)) (k v : String) : List (String × String) :=
  if l.any (fun p => p.1 = k) then
    l.map (fun p => if p.1 = k then (k, v) else p)
  else
    l ++ [(k, v)]

/-- Python `a | b` on insertion-ordered dicts (entries of `b` override). -/
def dictMerge (a b : List (String × String)) : List (String × String) :=
  b.foldl (fun acc kv => dictInsert acc kv.1 kv.2) a

/-- Python `d[k]` (as an `Option`) on an insertion-ordered dict. -/
def dictLookup (l : List (String × String)) (k : String) : Option String :=
  match l with
  | [] => Option.none
  | p :: rest => if p.1 = k then some p.2 else dictLookup rest k

/-- The `script_dir` argument of `SlurmExecutableBuilder.__init__`: Python
`None`, a string, or an already-constructed `Path`. -/
inductive ScriptDirArg where
  | none
  | str (s : String)
  | path (p : String)
deriving DecidableEq, Repr

/-- The `TypeError` raised by `Path(None)`. -/
def pathOfNoneError : String :=
  "TypeError: argument should be a str or an os.PathLike object where __fspath__ returns a str, not <class 'NoneType'>"

/-- The `script_dir` handling of `SlurmExecutableBuilder.__init__` (base.py
lines 51-56): the `None` case first assigns the `Path.home() / \"slurm\"`
default, but the next statement is an independent `if` (not an `elif`), so
a non-`Path` value — including `None` — is unconditionally re-converted via
`Path(script_dir).expanduser()`, which raises `TypeError` on `None`.  The
dead `home ++ \"/slurm\"` assignment is kept to mirror the source. -/
def builder_init_dir (home : String) (script_dir : ScriptDirArg) : Except String String :=
  let defaultDir : Option String :=
    if script_dir = ScriptDirArg.none then some (home ++ "/slurm") else Option.none
  match script_dir, defaultDir with
  | ScriptDirArg.path p, _ => Except.ok p
  | ScriptDirArg.str s, _ => Except.ok (expanduser home s)
  | ScriptDirArg.none, _ => Except.error pathOfNoneError

/-- The state of a `SlurmExecutableBuilder`. -/
structure SlurmExecutableBuilder where
  job_name : String
  full_job_name : Option String
  _dir : String
  script_file : String
  _args : List (String × String)
  _commands : List String
deriving DecidableEq, Repr

/-- `builder.arg(arg, value)`: `self._args[arg] = value`. -/
def SlurmExecutableBuilder.arg (b : SlurmExecutableBuilder) (a v : String) :
    SlurmExecutableBuilder :=
  { b with _args := dictInsert b._args a v }

/-- `builder.args(args)`: assign every pair into `self._args`. -/
def SlurmExecutableBuilder.args (b : SlurmExecutableBuilder)
    (kvs : List (String × String)) : SlurmExecutableBuilder :=
  kvs.foldl (fun b kv => b.arg kv.1 kv.2) b

/-- `builder.output(filename)`: set both `--output` and `--error` to
`str(self._dir / filename)`. -/
def SlurmExecutableBuilder.output (b : SlurmExecutableBuilder) (filename : String) :
    SlurmExecutableBuilder :=
  (b.arg "--output" (b._dir ++ "/" ++ filename)).arg "--error" (b._dir ++ "/" ++ filename)

/-- `builder.is_array_task()`: `"--array" in self._args or "-a" in self._args`. -/
def SlurmExecutableBuilder.is_array_task (b : SlurmExecutableBuilder) : Bool :=
  b._args.any (fun p => p.1 = "--array") || b._args.any (fun p => p.1 = "-a")

/-- `builder.command(command)` for a single command string. -/
def SlurmExecutableBuilder.command (b : SlurmExecutableBuilder) (c : String) :
    SlurmExecutableBuilder :=
  { b with _commands := b._commands ++ [c] }

/-- `builder.command(commands)` for a list of command strings. -/
def SlurmExecutableBuilder.commandList (b : SlurmExecutableBuilder)
    (cs : List String) : SlurmExecutableBuilder :=
  { b with _commands := b._commands ++ cs }

/-- The opening echo command emitted by `__init__`. -/
def initEchoCommand (job_name : String) (full_job_name : Option String) : String :=
  match full_job_name with
  | Option.none =>
      "echo '# Executing job \"" ++ job_name ++ "\" in a task generated using slurmexec.'"
  | some fjn =>
      "echo '# Executing job \"" ++ job_name ++ "\" (" ++ fjn ++ ") in a task generated using slurmexec.'"

/-- `SlurmExecutableBuilder.__init__(job_name, full_job_name, script_dir)`
(base.py lines 47-70): resolve the script directory (which raises for
`None`), set `script_file`, seed `_args` with the job name, set the default
output pattern through `self.output`, and push the opening echo command. -/
def SlurmExecutableBuilder.init (job_name : String) (full_job_name : Option String)
    (script_dir : ScriptDirArg) (home : String) :
    Except String SlurmExecutableBuilder :=
  (builder_init_dir home script_dir).map (fun dir =>
    let b0 : SlurmExecutableBuilder :=
      { job_name := job_name
        full_job_name := full_job_name
        _dir := dir
        script_file := dir ++ "/" ++ job_name ++ "/_temp_job.slurm"
        _args := [("--job-name", job_name)]
        _commands := [] }
    (b0.output "%x_%j.log").command (initEchoCommand job_name full_job_name))

/-- The structured result dict returned by `builder.sbatch` (base.py lines
148-180): always `success`, `script_file` and `is_array_task`; `job_id` and
`log_file` only on the success branch. -/
structure SbatchOutData where
  success : Bool
  script_file : String
  is_array_task : Bool
  job_id : Option String
  log_file : Option String
deriving DecidableEq, Repr

/-- The acknowledgment-parsing part of `builder.sbatch` (base.py lines
148-180), as a function of the stripped sbatch output: on the
`Submitted batch job` prefix the job id is the piece after the last space
and the log file is derived from the `--output` directive; otherwise the
result is marked unsuccessful (the raw output is only printed). -/
def sbatch_parse (job_name script_file output_directive : String)
    (is_array : Bool) (slurm_output : String) : SbatchOutData :=
  if pyStartsWith slurm_output "Submitted batch job" then
    let job_id := rsplit_last slurm_output
    let log_file :=
      pyReplace (pyReplace (pyReplace output_directive "%x" job_name) "%A" job_id) "%j" job_id
    { success := true
      script_file := script_file
      is_array_task := is_array
      job_id := some job_id
      log_file := some log_file }
  else
    { success := false
      script_file := script_file
      is_array_task := is_array
      job_id := Option.none
      log_file := Option.none }

/-- `builder.sbatch` applied to a builder state and the scheduler's output
text (the subprocess call and printing are outside the embedding). -/
def SlurmExecutableBuilder.sbatch_result (b : SlurmExecutableBuilder)
    (slurm_output : String) : SbatchOutData :=
  sbatch_parse b.job_name b.script_file
    ((dictLookup b._args "--output").getD "") b.is_array_task slurm_output

/-! ## base.py: the LOCAL branch of `slurm_exec` -/

/-- The dict comprehension pairing unknown argv tokens into slurm arguments
(base.py lines 284-287): `{unk_args[i]: unk_args[i+1] for i in
range(0, len(unk_args), 2)}`.  An odd-length list raises `IndexError` on
the final `unk_args[i+1]`. -/
def pairUp : List String → Except String (List (String × String))
  | [] => Except.ok []
  | [_] => Except.error "IndexError: list index out of range"
  | k :: v :: rest => (pairUp rest).map (fun ps => (k, v) :: ps)

/-- The slurm argument dict after merging in the unknown command-line
arguments (base.py lines 279-289): `default_slurm_args | slurm_args`, then
`| slurm_unk_args` when there are unknown arguments
(`default_slurm_args` is empty). -/
def slurm_args_with_unknown (slurm_args : List (String × String))
    (unk_args : List String) : Except String (List (String × String)) :=
  if unk_args = [] then Except.ok (dictMerge [] slurm_args)
  else (pairUp unk_args).map (fun unk => dictMerge (dictMerge [] slurm_args) unk)

/-- The `exec_args_slurm` loop of `slurm_exec` (base.py lines 341-343):
every original argv token (after the script name) that is not one of the
unknown tokens, shell-quoted. -/
def exec_args_slurm (argv unk_args : List String) : List String :=
  argv.foldl (fun acc arg => if arg ∈ unk_args then acc else acc ++ [shlex_quote arg]) []

/-- The final invocation command of `slurm_exec` (base.py lines 345-349):
`["python", python_file]` extended with the quoted remaining argv tokens,
with `"srun"` inserted in front when `srun` is enabled, joined by spaces. -/
def slurm_exec_command (srun : Bool) (python_file : String)
    (argv unk_args : List String) : String :=
  let command := ["python", python_file] ++ exec_args_slurm argv unk_args
  let command := if srun then "srun" :: command else command
  String.intercalate " " command

/-- The informational echo commands of base.py lines 313-319. -/
def clusterEchoCommands : List String :=
  ["echo \"# Slurm job name: $SLURM_JOB_NAME\"",
   "echo \"# Slurm node: $SLURM_JOB_NODELIST\"",
   "echo \"# Slurm cluster: $SLURM_CLUSTER_NAME\"",
   "echo \"# Slurm job id: $SLURM_JOB_ID\""]

/-- The array-task echo commands of base.py lines 321-325. -/
def arrayEchoCommands : List String :=
  ["echo \"# Slurm array parent job id: $SLURM_ARRAY_JOB_ID\"",
   "echo \"# Slurm array task id: $SLURM_ARRAY_TASK_ID\""]

/-- The start-time echo commands of base.py lines 327-330. -/
def startTimeEchoCommands : List String :=
  ["echo \"# Job start time: $(date)\"", "echo"]

/-- The builder manipulations of base.py lines 302-353 applied to a freshly
initialized builder `b`: assign the merged slurm arguments, choose the
output pattern depending on `is_array_task`, emit the echo and pre-run
commands, and append the re-invocation command line. -/
def slurm_exec_assemble (merged : List (String × String))
    (pre_run_commands : List String) (srun : Bool) (python_file : String)
    (argv unk_args : List String) (b : SlurmExecutableBuilder) :
    SlurmExecutableBuilder :=
  let b := b.args merged
  let is_array := b.is_array_task
  let b := b.output (if is_array then "%A_%a.out" else "%j.out")
  let b := b.commandList clusterEchoCommands
  let b := if is_array then b.commandList arrayEchoCommands else b
  let b := b.commandList startTimeEchoCommands
  let b := b.commandList pre_run_commands
  let cmd := slurm_exec_command srun python_file argv unk_args
  ((b.command ("echo '# Executing via:' " ++ cmd)).command "echo").command cmd

/-- The LOCAL (submission) branch of `slurm_exec` (base.py lines 267-356)
up to the point where the script is handed to `sbatch`: merge the slurm
arguments with the unknown command-line tokens, build the
`SlurmExecutableBuilder`, and assemble the job description.  `argv` models
`sys.argv[1:]`. -/
def slurm_exec_build (home : String) (job_name : String)
    (full_job_name : Option String) (script_dir : ScriptDirArg)
    (slurm_args : List (String × String)) (pre_run_commands : List String)
    (srun : Bool) (python_file : String) (argv unk_args : List String) :
    Except String SlurmExecutableBuilder :=
  (slurm_args_with_unknown slurm_args unk_args).bind (fun merged =>
  (SlurmExecutableBuilder.init job_name full_job_name script_dir home).map
    (slurm_exec_assemble merged pre_run_commands srun python_file argv unk_args))

/-! ## Definitions following the spec's words (for refinement claims) -/

/-- Spec-side reading of the final invocation line (spec sections 6 and 9):
the original token list with the scheduler-only (unrecognized) tokens
removed and each remaining token shell-quoted, prefixed by the interpreter
and the wrapped function's source file, with the parallel-launch prefix
exactly when the srun option is enabled. -/
def spec_invocation_line (srun : Bool) (python_file : String)
    (argv unk_args : List String) : String :=
  String.intercalate " "
    ((if srun then ["srun"] else []) ++ ["python", python_file] ++
      (argv.filter (fun a => a ∉ unk_args)).map shlex_quote)

/-- Spec-side reading of "the last whitespace-separated token of the text"
(claim about the sbatch acknowledgment): split on whitespace, drop empty
pieces, take the last. -/
def wsSplit : List Char → List (List Char)
  | [] => [[]]
  | c :: rest =>
    match wsSplit rest, c.isWhitespace with
    | r, true => [] :: r
    | [], false => [[c]]
    | t :: ts, false => (c :: t) :: ts

/-- The last whitespace-separated token of `s` (and `s` itself when it has
no whitespace). -/
def lastWhitespaceToken (s : String) : String :=
  String.mk (((wsSplit s.toList).filter (fun t => t ≠ [])).getLastD s.toList)

/-- Modelled from the spec: `slurm_exec` in `src/` has no explicit
parallel-job-count parameter — the spec's design notes record that the
trigger for array mode varies across variants of this code, and in `src/`
an array job arises from a user-supplied `--array` scheduler directive.
Following the spec's array-task description, a parallel-job count of `n`
is therefore supplied as the scheduler directive `--array` with the range
value `1-n` among the user's `slurm_args`. -/
def slurm_args_of_parallel_count (n : Nat) : List (String × String) :=
  [("--array", "1-" ++ pyNatRepr n)]

/-- An argument vector whose unknown tokens come as alternating
flag/value pairs: the flattening of a list of pairs.  (Plumbing for
stating claims about the unknown-argument pairing.) -/
def flattenPairs (ps : List (String × String)) : List String :=
  ps.foldr (fun p acc => p.1 :: p.2 :: acc) []

/-! ## Helper lemmas -/

theorem digitVal_digitChar {d : Nat} (h : d < 10) :
    digitVal (Nat.digitChar d) = d := by
  interval_cases d <;> rfl

theorem digitChar_isDigit {d : Nat} (h : d < 10) :
    (Nat.digitChar d).isDigit = true := by
  interval_cases d <;> rfl

theorem natReprAux_eq_digits (fuel : Nat) :
    ∀ n, n ≤ fuel → natReprAux fuel n = (Nat.digits 10 n).reverse.map Nat.digitChar := by
  induction fuel with
  | zero =>
      intro n hn
      interval_cases n
      simp [natReprAux]
  | succ fuel ih =>
      intro n hn
      match n with
      | 0 => simp [natReprAux]
      | m+1 =>
          rw [natReprAux]
          rw [ih ((m+1) / 10) (by omega)]
          rw [Nat.digits_def' (by norm_num : 1 < 10) (Nat.succ_pos m)]
          simp

theorem pyNatRepr_toList (n : Nat) :
    (pyNatRepr n).toList =
      if n = 0 then ['0'] else (Nat.digits 10 n).reverse.map Nat.digitChar := by
  unfold pyNatRepr
  by_cases h : n = 0
  · simp [h]
  · rw [if_neg h, if_neg h, natReprAux_eq_digits n n le_rfl]
    rfl

theorem pyNatRepr_toList_ne_nil (n : Nat) : (pyNatRepr n).toList ≠ [] := by
  rw [pyNatRepr_toList]
  by_cases h : n = 0
  · simp [h]
  · simp [h, Nat.digits_ne_nil_iff_ne_zero.mpr h]

theorem pyNatRepr_all_digit (n : Nat) :
    ∀ c ∈ (pyNatRepr n).toList, c.isDigit = true := by
  rw [pyNatRepr_toList]
  by_cases h : n = 0
  · simp [h]
  · intro c hc
    rw [if_neg h] at hc
    simp only [List.mem_map, List.mem_reverse] at hc
    obtain ⟨d, hd, rfl⟩ := hc
    exact digitChar_isDigit (Nat.digits_lt_base (by norm_num) hd)

theorem foldl_digit_chars (L : List Nat) (hL : ∀ d ∈ L, d < 10) (a : Nat) :
    (L.map Nat.digitChar).foldl (fun a c => 10 * a + digitVal c) a =
      L.foldl (fun a d => 10 * a + d) a := by
  induction L generalizing a with
  | nil => rfl
  | cons d rest ih =>
      simp only [List.map_cons, List.foldl_cons]
      rw [digitVal_digitChar (hL d (List.mem_cons_self d rest))]
      exact ih (fun x hx => hL x (List.mem_cons_of_mem d hx)) _

theorem foldr_eq_ofDigits (L : List Nat) :
    L.foldr (fun d a => 10 * a + d) 0 = Nat.ofDigits 10 L := by
  induction L with
  | nil => simp [Nat.ofDigits]
  | cons d rest ih =>
      rw [List.foldr_cons, ih, Nat.ofDigits_cons]
      ring

theorem pyParseNatList_pyNatRepr (n : Nat) :
    pyParseNatList (pyNatRepr n).toList = Except.ok n := by
  unfold pyParseNatList
  rw [if_pos ⟨pyNatRepr_toList_ne_nil n, by
    rw [List.all_eq_true]
    intro c hc
    exact pyNatRepr_all_digit n c hc⟩]
  by_cases h : n = 0
  · subst h
    rfl
  · rw [pyNatRepr_toList, if_neg h]
    have hlt : ∀ d ∈ (Nat.digits 10 n).reverse, d < 10 := by
      intro d hd
      exact Nat.digits_lt_base (by norm_num) (List.mem_reverse.mp hd)
    rw [foldl_digit_chars _ hlt 0, List.foldl_reverse]
    have : (Nat.digits 10 n).foldr (fun x y => 10 * y + x) 0 =
        (Nat.digits 10 n).foldr (fun d a => 10 * a + d) 0 := rfl
    rw [this, foldr_eq_ofDigits, Nat.ofDigits_digits]

theorem toList_append (s t : String) : (s ++ t).toList = s.toList ++ t.toList := by
  simp [String.toList]

theorem pyParseInt_pyIntRepr (n : Int) : pyParseInt (pyIntRepr n) = Except.ok n := by
  unfold pyIntRepr
  by_cases hn : n < 0
  · rw [if_pos hn]
    unfold pyParseInt
    have h1 : ("-" ++ pyNatRepr n.natAbs).toList = '-' :: (pyNatRepr n.natAbs).toList := by
      rw [toList_append]
      rfl
    rw [h1]
    simp only [List.head?_cons, List.tail_cons, if_pos rfl]
    rw [pyParseNatList_pyNatRepr]
    simp only [Except.map]
    refine congrArg Except.ok ?_
    show -Int.ofNat n.natAbs = n
    simp only [Int.ofNat_eq_coe]
    omega
  · rw [if_neg hn]
    unfold pyParseInt
    have hne := pyNatRepr_toList_ne_nil n.toNat
    have hd : ∀ c ∈ (pyNatRepr n.toNat).toList, c.isDigit = true := pyNatRepr_all_digit n.toNat
    have hhead : (pyNatRepr n.toNat).toList.head? ≠ some '-' := by
      match hl : (pyNatRepr n.toNat).toList with
      | [] => exact absurd hl hne
      | c :: rest =>
          have : c.isDigit = true := hd c (by rw [hl]; exact List.mem_cons_self c rest)
          simp only [List.head?_cons, ne_eq, Option.some.injEq]
          intro hh
          rw [hh] at this
          exact absurd this (by decide)
    rw [if_neg hhead, pyParseNatList_pyNatRepr]
    simp only [Except.map]
    refine congrArg Except.ok ?_
    show Int.ofNat n.toNat = n
    simp only [Int.ofNat_eq_coe]
    omega

theorem dictLookup_dictInsert_self (l : List (String × String)) (k v : String) :
    dictLookup (dictInsert l k v) k = some v := by
  unfold dictInsert
  by_cases h : l.any (fun p => p.1 = k)
  · rw [if_pos h]
    induction l with
    | nil => simp at h
    | cons p rest ih =>
        by_cases hp : p.1 = k
        · simp [dictLookup, hp]
        · have hrest : rest.any (fun p => p.1 = k) := by
            simp only [List.any_cons] at h
            simpa [hp] using h
          simp only [List.map_cons, if_neg hp, dictLookup]
          exact ih hrest
  · rw [if_neg h]
    induction l with
    | nil => simp [dictLookup]
    | cons p rest ih =>
        simp only [List.any_cons, Bool.or_eq_true, not_or] at h
        have hp : ¬ p.1 = k := by
          intro hq
          exact absurd (by simp [hq]) h.1
        simp only [List.cons_append, dictLookup]
        rw [if_neg hp]
        exact ih (by simp [h.2])

theorem dictLookup_dictInsert_ne (l : List (String × String)) (k v k2 : String)
    (hne : k ≠ k2) : dictLookup (dictInsert l k v) k2 = dictLookup l k2 := by
  unfold dictInsert
  by_cases h : l.any (fun p => p.1 = k)
  · rw [if_pos h]
    clear h
    induction l with
    | nil => rfl
    | cons p rest ih =>
        by_cases hp : p.1 = k
        · simp only [List.map_cons, if_pos hp, dictLookup]
          rw [if_neg hne, if_neg (by rw [hp]; exact hne), ih]
        · simp only [List.map_cons, if_neg hp, dictLookup]
          by_cases hq : p.1 = k2
          · rw [if_pos hq, if_pos hq]
          · rw [if_neg hq, if_neg hq, ih]
  · rw [if_neg h]
    induction l with
    | nil =>
        simp only [List.nil_append, dictLookup]
        rw [if_neg hne]
    | cons p rest ih =>
        simp only [List.any_cons, Bool.or_eq_true, not_or] at h
        simp only [List.cons_append, dictLookup]
        by_cases hq : p.1 = k2
        · rw [if_pos hq, if_pos hq]
        · rw [if_neg hq, if_neg hq]
          exact ih (by simp [h.2])

theorem map_fst_subst (rest : List (String × String)) (k v : String) :
    List.map Prod.fst (List.map (fun p => if p.1 = k then (k, v) else p) rest) =
      List.map Prod.fst rest := by
  induction rest with
  | nil => rfl
  | cons q qrest ih =>
      by_cases hq : q.1 = k
      · simp only [List.map_cons, if_pos hq, ih]
        simp [hq]
      · simp only [List.map_cons, if_neg hq, ih]

theorem keys_dictInsert (l : List (String × String)) (k v : String) :
    (dictInsert l k v).map Prod.fst =
      if l.any (fun p => p.1 = k) then l.map Prod.fst else l.map Prod.fst ++ [k] := by
  unfold dictInsert
  by_cases h : l.any (fun p => p.1 = k)
  · rw [if_pos h, if_pos h]
    exact map_fst_subst l k v
  · rw [if_neg h, if_neg h]
    simp

theorem keys_dictInsert_nodup (l : List (String × String)) (k v : String)
    (h : (l.map Prod.fst).Nodup) : ((dictInsert l k v).map Prod.fst).Nodup := by
  rw [keys_dictInsert]
  by_cases hc : l.any (fun p => p.1 = k)
  · rwa [if_pos hc]
  · rw [if_neg hc]
    have hk : k ∉ l.map Prod.fst := by
      intro hmem
      apply hc
      simp only [List.mem_map] at hmem
      obtain ⟨p, hp, hfst⟩ := hmem
      rw [List.any_eq_true]
      exact ⟨p, hp, by simp [hfst]⟩
    simp only [List.nodup_append, List.nodup_cons, List.nodup_nil]
    refine ⟨h, by simp, ?_⟩
    intro a ha hmem
    simp only [List.mem_singleton] at hmem
    subst hmem
    exact hk ha

theorem dictLookup_eq_none_of_not_mem (l : List (String × String)) (k : String)
    (h : k ∉ l.map Prod.fst) : dictLookup l k = Option.none := by
  induction l with
  | nil => rfl
  | cons p rest ih =>
      simp only [List.map_cons, List.mem_cons, not_or] at h
      simp only [dictLookup]
      rw [if_neg (fun hq => h.1 hq.symm)]
      exact ih h.2

theorem dictMerge_cons (base : List (String × String)) (p : String × String)
    (rest : List (String × String)) :
    dictMerge base (p :: rest) = dictMerge (dictInsert base p.1 p.2) rest := rfl

theorem dictLookup_dictMerge_not_mem (m : List (String × String)) :
    ∀ (base : List (String × String)) (k : String), k ∉ m.map Prod.fst →
      dictLookup (dictMerge base m) k = dictLookup base k := by
  induction m with
  | nil => intro base k _; rfl
  | cons p rest ih =>
      intro base k hk
      simp only [List.map_cons, List.mem_cons, not_or] at hk
      rw [dictMerge_cons, ih _ k hk.2,
        dictLookup_dictInsert_ne _ _ _ _ (fun hq => hk.1 hq.symm)]

theorem dictLookup_dictMerge_of_lookup (m : List (String × String)) :
    ∀ (base : List (String × String)) (k v : String), (m.map Prod.fst).Nodup →
      dictLookup m k = some v → dictLookup (dictMerge base m) k = some v := by
  induction m with
  | nil => intro base k v _ hl; cases hl
  | cons p rest ih =>
      intro base k v hnodup hl
      simp only [List.map_cons, List.nodup_cons] at hnodup
      simp only [dictLookup] at hl
      by_cases hp : p.1 = k
      · rw [if_pos hp] at hl
        rw [dictMerge_cons]
        have hk : k ∉ rest.map Prod.fst := by
          rw [← hp]
          exact hnodup.1
        rw [dictLookup_dictMerge_not_mem rest _ k hk]
        have hv : p.2 = v := Option.some.inj hl
        rw [hp, hv, dictLookup_dictInsert_self]
      · rw [if_neg hp] at hl
        rw [dictMerge_cons]
        exact ih _ k v hnodup.2 hl

theorem keys_dictMerge_nodup (m : List (String × String)) :
    ∀ base : List (String × String), ((base).map Prod.fst).Nodup →
      ((dictMerge base m).map Prod.fst).Nodup := by
  induction m with
  | nil => intro base h; exact h
  | cons p rest ih =>
      intro base h
      rw [dictMerge_cons]
      exact ih _ (keys_dictInsert_nodup base p.1 p.2 h)

theorem dictLookup_of_mem_nodup (ps : List (String × String)) (k v : String)
    (hnodup : (ps.map Prod.fst).Nodup) (hmem : (k, v) ∈ ps) :
    dictLookup ps k = some v := by
  induction ps with
  | nil => cases hmem
  | cons p rest ih =>
      simp only [List.map_cons, List.nodup_cons] at hnodup
      rcases List.mem_cons.mp hmem with heq | htail
      · subst heq
        simp [dictLookup]
      · have hne : p.1 ≠ k := by
          intro hq
          apply hnodup.1
          rw [hq]
          exact List.mem_map_of_mem Prod.fst htail
        simp only [dictLookup]
        rw [if_neg hne]
        exact ih hnodup.2 htail

theorem flattenPairs_cons (p : String × String) (rest : List (String × String)) :
    flattenPairs (p :: rest) = p.1 :: p.2 :: flattenPairs rest := rfl

theorem pairUp_flattenPairs (ps : List (String × String)) :
    pairUp (flattenPairs ps) = Except.ok ps := by
  induction ps with
  | nil => rfl
  | cons p rest ih =>
      rw [flattenPairs_cons]
      show (pairUp (flattenPairs rest)).map (fun l => (p.1, p.2) :: l) = Except.ok (p :: rest)
      rw [ih]
      rfl

theorem builder_args_spec (kvs : List (String × String)) :
    ∀ b : SlurmExecutableBuilder,
      SlurmExecutableBuilder.args b kvs = { b with _args := dictMerge b._args kvs } := by
  induction kvs with
  | nil => intro b; rfl
  | cons kv rest ih =>
      intro b
      show SlurmExecutableBuilder.args (b.arg kv.1 kv.2) rest = _
      rw [ih]
      rfl

theorem exec_args_slurm_go (unk : List String) (argv : List String) :
    ∀ acc : List String,
      argv.foldl (fun acc arg => if arg ∈ unk then acc else acc ++ [shlex_quote arg]) acc =
        acc ++ (argv.filter (fun a => a ∉ unk)).map shlex_quote := by
  induction argv with
  | nil => intro acc; simp
  | cons a rest ih =>
      intro acc
      by_cases h : a ∈ unk
      · simp only [List.foldl_cons, if_pos h]
        rw [ih]
        congr 1
        simp [List.filter_cons, h]
      · simp only [List.foldl_cons, if_neg h]
        rw [ih]
        simp [List.filter_cons, h]

theorem exec_args_slurm_eq (argv unk : List String) :
    exec_args_slurm argv unk = (argv.filter (fun a => a ∉ unk)).map shlex_quote := by
  unfold exec_args_slurm
  rw [exec_args_slurm_go]
  rfl

theorem slurm_exec_command_eq_spec (srun : Bool) (python_file : String)
    (argv unk : List String) :
    slurm_exec_command srun python_file argv unk =
      spec_invocation_line srun python_file argv unk := by
  unfold slurm_exec_command spec_invocation_line
  rw [exec_args_slurm_eq]
  cases srun <;> rfl

theorem command_args (b : SlurmExecutableBuilder) (c : String) :
    (b.command c)._args = b._args := rfl

theorem commandList_args (b : SlurmExecutableBuilder) (cs : List String) :
    (b.commandList cs)._args = b._args := rfl

theorem ite_commandList_args (c : Bool) (y : SlurmExecutableBuilder) (A : List String) :
    (if c then y.commandList A else y)._args = y._args := by
  cases c <;> rfl

theorem output_args (b : SlurmExecutableBuilder) (f : String) :
    (b.output f)._args =
      dictInsert (dictInsert b._args "--output" (b._dir ++ "/" ++ f)) "--error"
        (b._dir ++ "/" ++ f) := rfl

theorem output_lookup_eq (b : SlurmExecutableBuilder) (f : String) :
    dictLookup ((b.output f)._args) "--output" = dictLookup ((b.output f)._args) "--error" := by
  rw [output_args]
  rw [dictLookup_dictInsert_ne _ _ _ _ (by decide : "--error" ≠ "--output")]
  rw [dictLookup_dictInsert_self, dictLookup_dictInsert_self]

theorem init_ok_str (job_name : String) (full_job_name : Option String)
    (home sdir : String) :
    SlurmExecutableBuilder.init job_name full_job_name (ScriptDirArg.str sdir) home =
      Except.ok
        ((({ job_name := job_name
             full_job_name := full_job_name
             _dir := expanduser home sdir
             script_file := expanduser home sdir ++ "/" ++ job_name ++ "/_temp_job.slurm"
             _args := [("--job-name", job_name)]
             _commands := [] } : SlurmExecutableBuilder).output "%x_%j.log").command
          (initEchoCommand job_name full_job_name)) := rfl

theorem init_lookup_output_eq (job_name : String) (full_job_name : Option String)
    (sd : ScriptDirArg) (home : String) (b : SlurmExecutableBuilder)
    (h : SlurmExecutableBuilder.init job_name full_job_name sd home = Except.ok b) :
    dictLookup b._args "--output" = dictLookup b._args "--error" := by
  unfold SlurmExecutableBuilder.init at h
  cases hd : builder_init_dir home sd with
  | error e =>
      rw [hd] at h
      cases h
  | ok dir =>
      rw [hd] at h
      obtain rfl := (Except.ok.inj h).symm
      rw [command_args]
      exact output_lookup_eq _ _

theorem assemble_commands_getLast (merged : List (String × String))
    (pre : List String) (srun : Bool) (pf : String) (argv unk : List String)
    (b : SlurmExecutableBuilder) :
    (slurm_exec_assemble merged pre srun pf argv unk b)._commands.getLastD "" =
      slurm_exec_command srun pf argv unk := by
  unfold slurm_exec_assemble
  simp [SlurmExecutableBuilder.command]

theorem assemble_args_lookup (merged : List (String × String)) (pre : List String)
    (srun : Bool) (pf : String) (argv unk : List String)
    (b : SlurmExecutableBuilder) (k : String)
    (hk1 : k ≠ "--output") (hk2 : k ≠ "--error") :
    dictLookup ((slurm_exec_assemble merged pre srun pf argv unk b)._args) k =
      dictLookup (dictMerge b._args merged) k := by
  unfold slurm_exec_assemble
  rw [command_args, command_args, command_args, commandList_args, commandList_args,
    ite_commandList_args, commandList_args, output_args, builder_args_spec]
  rw [dictLookup_dictInsert_ne _ _ _ _ (Ne.symm hk2),
    dictLookup_dictInsert_ne _ _ _ _ (Ne.symm hk1)]

/-! ## Claim theorems -/

/-- C1: for every function wrapped by `slurm_job`, calling the wrapper while
the execution context is LOCAL (no job-id environment variable and debug
flag disabled) raises the invalid-invocation error and does not call the
function (the outcome is the same for any wrapped function); calling it
while SCHEDULED calls the function with the same arguments and returns the
function's result. -/
theorem slurm_job_wrapper_dispatch {α β : Type} (s : ProcState) (funcName : String)
    (f g : α → β) (x : α) :
    (s.envSlurmJobId = Option.none → s.isSlurmDebug = false →
      slurm_job_call s funcName f x = Except.error (slurm_job_error_msg funcName) ∧
      slurm_job_call s funcName f x = slurm_job_call s funcName g x) ∧
    (is_this_a_slurm_job s = true → slurm_job_call s funcName f x = Except.ok (f x)) := by
  constructor
  · intro h1 h2
    have hloc : is_this_a_slurm_job s = false := by
      simp [is_this_a_slurm_job, h1, h2]
    constructor <;> simp [slurm_job_call, hloc]
  · intro h
    simp [slurm_job_call, h]

/-- Witness for C1 at a concrete LOCAL state and a concrete SCHEDULED state. -/
theorem slurm_job_wrapper_dispatch_witness :
    slurm_job_call (ProcState.mk Option.none false) "countdown" (fun n : Nat => n + 1) 3 =
      Except.error (slurm_job_error_msg "countdown") ∧
    slurm_job_call (ProcState.mk (some "4821") false) "countdown" (fun n : Nat => n + 1) 3 =
      Except.ok 4 := by
  constructor
  · exact ((slurm_job_wrapper_dispatch (ProcState.mk Option.none false) "countdown"
      (fun n : Nat => n + 1) (fun n : Nat => n + 1) 3).1 rfl rfl).1
  · exact (slurm_job_wrapper_dispatch (ProcState.mk (some "4821") false) "countdown"
      (fun n : Nat => n + 1) (fun n : Nat => n + 1) 3).2 rfl

/-- C5 counterexample: the mode predicate is recomputed on every call, so
its verdict is not fixed at process start: starting LOCAL (no job-id
variable, debug disabled), a `set_slurm_debug(True)` event occurring after
process start flips the reported mode to SCHEDULED. -/
theorem mode_reevaluated_counterexample :
    is_this_a_slurm_job (ProcState.mk Option.none false) = false ∧
    is_this_a_slurm_job
        (runEvents (ProcState.mk Option.none false) [SlurmEvent.setDebug true]) = true :=
  ⟨rfl, rfl⟩

/-- C5 (amended): the mode predicate reports SCHEDULED exactly when the
job-id environment variable is present OR the debug override flag is
enabled, and LOCAL otherwise; it is recomputed from the current process
state on each call, so changing the debug flag after process start changes
the reported mode accordingly. -/
theorem mode_predicate_amended (s : ProcState) (b : Bool) :
    is_this_a_slurm_job s = (s.envSlurmJobId.isSome || s.isSlurmDebug) ∧
    is_this_a_slurm_job (set_slurm_debug b s) = (s.envSlurmJobId.isSome || b) :=
  ⟨rfl, rfl⟩

/-- C10: constructing a `SlurmExecutableBuilder` with `script_dir = None`
always raises a `TypeError` before any field is usable: the `None` case
first assigns the home-directory default, but the following branch
(an `if`, not an `elif`) unconditionally re-converts the `None` value via
`Path(None)`, so the documented home-directory default is never the
resulting script directory. -/
theorem builder_none_script_dir_raises (job_name : String) (full_job_name : Option String)
    (home : String) :
    SlurmExecutableBuilder.init job_name full_job_name ScriptDirArg.none home =
      Except.error pathOfNoneError ∧
    builder_init_dir home ScriptDirArg.none ≠ Except.ok (home ++ "/slurm") := by
  constructor
  · rfl
  · intro h
    have : (Except.error pathOfNoneError : Except String String) =
        Except.ok (home ++ "/slurm") := h
    simp at this

/-- C3: a boolean parameter with declared default `d`, given only its bare
flag with no value, parses to the logical negation of `d`; given no flag at
all, it parses to `d`. -/
theorem bool_flag_negates_default (name : String) (d : Bool) :
    parseArgScan (derive_arg_spec name (some PyType.bool) (some (PyValue.bool d)))
        ["--" ++ name] = Except.ok (PyValue.bool (!d)) ∧
    parseArgScan (derive_arg_spec name (some PyType.bool) (some (PyValue.bool d))) [] =
      Except.ok (PyValue.bool d) := by
  cases d <;> constructor <;> simp [parseArgScan, derive_arg_spec, boolConstOf]

/-- C4 counterexample: an enumerated-choice parameter whose choices are the
integers 1 and 2 rejects the canonical string representation of the value 1:
the deriver deletes the `type` keyword for `Literal` annotations, so
argparse keeps the token as the string `"1"`, which is not equal (by Python
equality) to the integer choice `1`; the round-trip law fails. -/
theorem schema_round_trip_counterexample :
    pyRepr (PyValue.int 1) = "1" ∧
    convert_value
        (derive_arg_spec "mode" (some (PyType.literal [PyValue.int 1, PyValue.int 2]))
          (some (PyValue.int 1))) "1" = Except.error "invalid choice" ∧
    convert_value
        (derive_arg_spec "mode" (some (PyType.literal [PyValue.int 1, PyValue.int 2]))
          (some (PyValue.int 1))) "1" ≠ Except.ok (PyValue.int 1) := by
  refine ⟨rfl, rfl, ?_⟩
  intro h
  exact Except.noConfusion h

/-- C4 (amended): deriving the CLI schema and then parsing a value's
canonical string representation through the derived converter round-trips
to an equal value for integer, string and boolean parameters, and for
enumerated-choice parameters whose declared choices are strings; an
enumerated choice with non-string values rejects even its own canonical
representations (and `float` parameters are binary floating point, outside
this embedding). -/
theorem schema_round_trip_amended (name : String) (defv : Option PyValue) :
    (∀ n : Int, convert_value (derive_arg_spec name (some PyType.int) defv)
        (pyRepr (PyValue.int n)) = Except.ok (PyValue.int n)) ∧
    (∀ s : String, convert_value (derive_arg_spec name (some PyType.str) defv)
        (pyRepr (PyValue.str s)) = Except.ok (PyValue.str s)) ∧
    (∀ b : Bool, convert_value (derive_arg_spec name (some PyType.bool) defv)
        (pyRepr (PyValue.bool b)) = Except.ok (PyValue.bool b)) ∧
    (∀ (cs : List PyValue) (s : String), PyValue.str s ∈ cs →
        convert_value (derive_arg_spec name (some (PyType.literal cs)) defv)
          (pyRepr (PyValue.str s)) = Except.ok (PyValue.str s)) := by
  refine ⟨?_, ?_, ?_, ?_⟩
  · intro n
    show convert_value _ (pyIntRepr n) = _
    simp [convert_value, derive_arg_spec, applyType, pyParseInt_pyIntRepr,
      Except.map, Except.bind]
  · intro s
    rfl
  · intro b
    cases b <;> rfl
  · intro cs s hmem
    simp [convert_value, derive_arg_spec, pyRepr, hmem, Except.bind]

/-- Witness for C4 (amended) at a negative integer and at a string-valued
enumeration. -/
theorem schema_round_trip_amended_witness :
    convert_value (derive_arg_spec "p" (some PyType.int) Option.none)
        (pyRepr (PyValue.int (-7))) = Except.ok (PyValue.int (-7)) ∧
    convert_value
        (derive_arg_spec "mode" (some (PyType.literal [PyValue.str "a", PyValue.str "b"]))
          Option.none) (pyRepr (PyValue.str "a")) = Except.ok (PyValue.str "a") := by
  constructor
  · exact (schema_round_trip_amended "p" Option.none).1 (-7)
  · exact (schema_round_trip_amended "mode" Option.none).2.2.2
      [PyValue.str "a", PyValue.str "b"] "a" (by decide)

/-- C2 counterexample: two failures of the claim as stated.  First, for a
text that starts with the acknowledgment prefix but whose tail contains a
tab, the extracted job id is the substring after the last space character,
not the last whitespace-separated token.  Second, the raw output text of a
failed submission is not preserved in the structured result: two distinct
failing outputs produce identical results, so the text cannot be recovered
from the result (it is only printed). -/
theorem sbatch_ack_parsing_counterexample :
    ((sbatch_parse "j" "f" "o" false "Submitted batch job\t4821").job_id =
        some "job\t4821" ∧
      lastWhitespaceToken "Submitted batch job\t4821" = "4821" ∧
      ("job\t4821" : String) ≠ "4821") ∧
    (sbatch_parse "j" "f" "o" false "sbatch: error A" =
        sbatch_parse "j" "f" "o" false "sbatch: error B" ∧
      ("sbatch: error A" : String) ≠ "sbatch: error B") := by
  refine ⟨⟨?_, ?_, ?_⟩, ?_, ?_⟩ <;> decide

/-- C2 (amended): if the scheduler output starts with `Submitted batch job`
the result has success true and job id equal to the substring after the
last space character of the text (for `"Submitted batch job 4821"` that is
`"4821"`); for every non-matching text the result has success false and
carries no job id and no log file — the raw output is printed for
diagnostics but is not part of the structured result. -/
theorem sbatch_ack_parsing_amended (jn sf od : String) (ia : Bool) :
    ((sbatch_parse jn sf od ia "Submitted batch job 4821").success = true ∧
      (sbatch_parse jn sf od ia "Submitted batch job 4821").job_id = some "4821") ∧
    (∀ text, pyStartsWith text "Submitted batch job" = true →
      (sbatch_parse jn sf od ia text).success = true ∧
      (sbatch_parse jn sf od ia text).job_id = some (rsplit_last text)) ∧
    (∀ text, pyStartsWith text "Submitted batch job" = false →
      sbatch_parse jn sf od ia text =
        { success := false, script_file := sf, is_array_task := ia,
          job_id := Option.none, log_file := Option.none }) := by
  refine ⟨⟨?_, ?_⟩, ?_, ?_⟩
  · rfl
  · rfl
  · intro text h
    constructor <;> simp [sbatch_parse, h]
  · intro text h
    simp [sbatch_parse, h]

/-- Witness for C2 (amended) at a fresh successful acknowledgment and at a
concrete failing output. -/
theorem sbatch_ack_parsing_amended_witness :
    ((sbatch_parse "countdown" "file" "out" false "Submitted batch job 99").success = true ∧
      (sbatch_parse "countdown" "file" "out" false "Submitted batch job 99").job_id =
        some (rsplit_last "Submitted batch job 99")) ∧
    sbatch_parse "countdown" "file" "out" false "sbatch: error" =
      { success := false, script_file := "file", is_array_task := false,
        job_id := Option.none, log_file := Option.none } := by
  constructor
  · exact (sbatch_ack_parsing_amended "countdown" "file" "out" false).2.1
      "Submitted batch job 99" (by decide)
  · exact (sbatch_ack_parsing_amended "countdown" "file" "out" false).2.2
      "sbatch: error" (by decide)

/-- C7: for a submission with job name `countdown` and a parallel-job count
of 3 (supplied, as modelled from the spec, as the array directive
`--array=1-3` among the slurm arguments), the job description produced by
the builder contains the array-range directive `1-3`, and the builder
recognizes the job as an array task. -/
theorem array_directive_from_parallel_count :
    (slurm_exec_build "/home/user" "countdown" Option.none (ScriptDirArg.str "~/slurm")
        (slurm_args_of_parallel_count 3) [] true "main.py" [] []).map
      (fun b => (dictLookup b._args "--array", b.is_array_task)) =
      Except.ok (some "1-3", true) := rfl

/-- C6: the final invocation line of the generated script (the last command
the builder receives) is exactly the spec's pure transformation of the
original token list: unrecognized (scheduler-only) tokens removed, each
remaining token shell-quoted, prefixed by the interpreter and the wrapped
function's source file, with the parallel-launch prefix exactly when srun
is enabled. -/
theorem final_invocation_line_spec (home jn : String) (fjn : Option String)
    (sdir : String) (slurm_args : List (String × String)) (ps : List (String × String))
    (pre : List String) (srun : Bool) (pf : String) (argv unk : List String)
    (hunk : unk = flattenPairs ps) :
    (slurm_exec_build home jn fjn (ScriptDirArg.str sdir) slurm_args pre srun pf argv unk).map
      (fun b => b._commands.getLastD "") =
      Except.ok (spec_invocation_line srun pf argv unk) := by
  subst hunk
  unfold slurm_exec_build
  have hm : ∃ m, slurm_args_with_unknown slurm_args (flattenPairs ps) = Except.ok m := by
    unfold slurm_args_with_unknown
    by_cases h : flattenPairs ps = []
    · exact ⟨_, by rw [if_pos h]⟩
    · exact ⟨dictMerge (dictMerge [] slurm_args) ps, by
        rw [if_neg h, pairUp_flattenPairs]
        rfl⟩
  obtain ⟨m, hm⟩ := hm
  rw [hm, init_ok_str]
  simp only [Except.bind, Except.map]
  rw [assemble_commands_getLast, slurm_exec_command_eq_spec]

/-- Witness for C6 at a concrete command line with one recognized argument
pair and one unknown (scheduler) argument pair. -/
theorem final_invocation_line_spec_witness :
    (slurm_exec_build "/h" "j" Option.none (ScriptDirArg.str "/d") [] []
        true "main.py" ["--start", "5", "--mem", "4G"] ["--mem", "4G"]).map
      (fun b => b._commands.getLastD "") =
      Except.ok
        (spec_invocation_line true "main.py" ["--start", "5", "--mem", "4G"]
          ["--mem", "4G"]) :=
  final_invocation_line_spec "/h" "j" Option.none "/d" [] [("--mem", "4G")] [] true
    "main.py" ["--start", "5", "--mem", "4G"] ["--mem", "4G"] rfl

/-- C8 counterexample: an unknown `--output` flag is merged into the
directive mapping but does not survive to the final job description — the
builder's output-path policy overwrites it afterwards, so its user-supplied
value `X` is not the final value of the directive. -/
theorem unknown_flags_forwarded_counterexample :
    (slurm_exec_build "/h" "j" Option.none (ScriptDirArg.str "/d") [] []
        true "m.py" ["--output", "X"] ["--output", "X"]).map
      (fun b => dictLookup b._args "--output") = Except.ok (some "/d/%j.out") ∧
    ("/d/%j.out" : String) ≠ "X" := by
  constructor
  · rfl
  · decide

/-- C8 (amended): every unknown flag/value pair on the command line is
forwarded verbatim into the job description's directive mapping, provided
the flag is not `--output` or `--error` (whose forwarded values are
afterwards overwritten by the builder's output-path policy). -/
theorem unknown_flags_forwarded_amended (home jn : String) (fjn : Option String)
    (sdir : String) (slurm_args : List (String × String)) (ps : List (String × String))
    (pre : List String) (srun : Bool) (pf : String) (argv unk : List String) (k v : String)
    (hunk : unk = flattenPairs ps)
    (hnodup : (ps.map Prod.fst).Nodup)
    (hmem : (k, v) ∈ ps)
    (hk1 : k ≠ "--output") (hk2 : k ≠ "--error") :
    (slurm_exec_build home jn fjn (ScriptDirArg.str sdir) slurm_args pre srun pf argv unk).map
      (fun b => dictLookup b._args k) = Except.ok (some v) := by
  subst hunk
  have hpsne : ps ≠ [] := by
    rintro rfl
    cases hmem
  have hne : flattenPairs ps ≠ [] := by
    cases ps with
    | nil => exact absurd rfl hpsne
    | cons p rest => simp [flattenPairs_cons]
  unfold slurm_exec_build
  have hm : slurm_args_with_unknown slurm_args (flattenPairs ps) =
      Except.ok (dictMerge (dictMerge [] slurm_args) ps) := by
    unfold slurm_args_with_unknown
    rw [if_neg hne, pairUp_flattenPairs]
    rfl
  rw [hm, init_ok_str]
  simp only [Except.bind, Except.map]
  rw [assemble_args_lookup _ _ _ _ _ _ _ _ hk1 hk2]
  rw [dictLookup_dictMerge_of_lookup _ _ _ _ ?nodup ?lk]
  case nodup =>
    exact keys_dictMerge_nodup _ _ (keys_dictMerge_nodup _ _ (by simp))
  case lk =>
    exact dictLookup_dictMerge_of_lookup _ _ _ _ hnodup
      (dictLookup_of_mem_nodup ps k v hnodup hmem)

/-- Witness for C8 (amended) at a concrete unknown `--mem` pair. -/
theorem unknown_flags_forwarded_amended_witness :
    (slurm_exec_build "/h" "j" Option.none (ScriptDirArg.str "/d") [("--time", "1:00")] []
        true "m.py" ["--mem", "4G"] ["--mem", "4G"]).map
      (fun b => dictLookup b._args "--mem") = Except.ok (some "4G") :=
  unknown_flags_forwarded_amended "/h" "j" Option.none "/d" [("--time", "1:00")]
    [("--mem", "4G")] [] true "m.py" ["--mem", "4G"] ["--mem", "4G"] "--mem" "4G" rfl
    (by decide) (by decide) (by decide) (by decide)

/-- C9: the builder's output operation sets the `--output` and `--error`
directives to the same path string, so after construction and after any
sequence of output calls the two directives are always equal. -/
theorem output_error_directives_equal (job_name : String) (full_job_name : Option String)
    (sd : ScriptDirArg) (home : String) (b : SlurmExecutableBuilder) (fs : List String)
    (h : SlurmExecutableBuilder.init job_name full_job_name sd home = Except.ok b) :
    dictLookup ((fs.foldl SlurmExecutableBuilder.output b)._args) "--output" =
      dictLookup ((fs.foldl SlurmExecutableBuilder.output b)._args) "--error" := by
  rcases List.eq_nil_or_concat fs with rfl | ⟨fs2, f, rfl⟩
  · simpa using init_lookup_output_eq _ _ _ _ b h
  · rw [List.concat_eq_append, List.foldl_append]
    simp only [List.foldl_cons, List.foldl_nil]
    exact output_lookup_eq _ f

/-- Witness for C9: a freshly constructed builder followed by one output
call. -/
theorem output_error_directives_equal_witness :
    dictLookup ((["a.log"].foldl SlurmExecutableBuilder.output
        ((({ job_name := "j", full_job_name := Option.none, _dir := "/d",
             script_file := "/d/j/_temp_job.slurm",
             _args := [("--job-name", "j")], _commands := [] } :
            SlurmExecutableBuilder).output "%x_%j.log").command
          (initEchoCommand "j" Option.none)))._args) "--output" =
      dictLookup ((["a.log"].foldl SlurmExecutableBuilder.output
        ((({ job_name := "j", full_job_name := Option.none, _dir := "/d",
             script_file := "/d/j/_temp_job.slurm",
             _args := [("--job-name", "j")], _commands := [] } :
            SlurmExecutableBuilder).output "%x_%j.log").command
          (initEchoCommand "j" Option.none)))._args) "--error" :=
  output_error_directives_equal "j" Option.none (ScriptDirArg.str "/d") "/h" _ ["a.log"] rfl

/-- Witness for C10 at a concrete job name and home directory. -/
theorem builder_none_script_dir_raises_witness :
    SlurmExecutableBuilder.init "countdown" Option.none ScriptDirArg.none "/home/u" =
      Except.error pathOfNoneError ∧
    builder_init_dir "/home/u" ScriptDirArg.none ≠ Except.ok ("/home/u" ++ "/slurm") :=
  builder_none_script_dir_raises "countdown" Option.none "/home/u"
